import Mathlib

/-!
# Verification of the rsqs screenshot-selection tool

Shallow embedding of the selection state machine, geometry, overlay mask
computation and cropper of `src/main.rs` (druid version, the consolidated
target design per the spec), together with proofs of the spec's claims.

Coordinates are modelled as exact rationals (`ℚ`): every operation the code
performs on its `f64` coordinates (`min`, `max`, `abs`, comparison,
subtraction of in-range values, adding/subtracting the constant 2.0,
truncating casts) is exact on the inputs that occur, so `ℚ` is a faithful
model of the arithmetic involved.
-/

namespace Rsqs

/-- A 2-D point, as druid's `Point { x: f64, y: f64 }`. -/
structure Point where
  x : ℚ
  y : ℚ
deriving DecidableEq, Repr

/-- A rectangle in the two-corner representation of druid/kurbo's
`Rect { x0, y0, x1, y1 }`.  Not necessarily normalized. -/
structure Rect where
  x0 : ℚ
  y0 : ℚ
  x1 : ℚ
  y1 : ℚ
deriving DecidableEq, Repr

namespace Rect

/-- kurbo `Rect::new`: stores the coordinates exactly as given. -/
def new (x0 y0 x1 y1 : ℚ) : Rect := ⟨x0, y0, x1, y1⟩

/-- kurbo `Rect::abs`: normalizes so that `x0 ≤ x1` and `y0 ≤ y1`. -/
def abs (r : Rect) : Rect :=
  ⟨min r.x0 r.x1, min r.y0 r.y1, max r.x0 r.x1, max r.y0 r.y1⟩

/-- kurbo `Rect::from_points`: the rectangle spanned by two corner points
(`Rect::new(p0.x, p0.y, p1.x, p1.y).abs()`). -/
def fromPoints (p0 p1 : Point) : Rect :=
  (new p0.x p0.y p1.x p1.y).abs

/-- kurbo `Rect::width`: `x1 - x0` (may be negative on a non-normalized rect). -/
def width (r : Rect) : ℚ := r.x1 - r.x0

/-- kurbo `Rect::height`: `y1 - y0`. -/
def height (r : Rect) : ℚ := r.y1 - r.y0

/-- kurbo `Rect::union`: smallest rect containing both. -/
def union (a b : Rect) : Rect :=
  ⟨min a.x0 b.x0, min a.y0 b.y0, max a.x1 b.x1, max a.y1 b.y1⟩

/-- kurbo `Rect::inset(d)` with a uniform inset: `Rect + Insets::uniform(d)`,
i.e. `Rect::new(x0 - d, y0 - d, x1 + d, y1 + d)`.  A POSITIVE `d` grows the
rectangle outward (kurbo doc example: `Rect::new(0.,0.,10.,10.).inset(2.)`
has `x0 = -2.0` and width `14.0`); a negative `d` shrinks it. -/
def inset (r : Rect) (d : ℚ) : Rect :=
  ⟨r.x0 - d, r.y0 - d, r.x1 + d, r.y1 + d⟩

/-- Half-open point membership `[x0, x1) × [y0, y1)`: the set of pixels a
rectangle covers when rasterized by `fill`. -/
def contains (r : Rect) (px py : ℚ) : Prop :=
  r.x0 ≤ px ∧ px < r.x1 ∧ r.y0 ≤ py ∧ py < r.y1

instance (r : Rect) (px py : ℚ) : Decidable (r.contains px py) := by
  unfold contains; infer_instance

/-- Area of a rectangle (`width * height`). -/
def area (r : Rect) : ℚ := r.width * r.height

end Rect

/-- druid `Size { width, height }`. -/
structure Size where
  w : ℚ
  h : ℚ
deriving DecidableEq, Repr

/-- druid `Size::to_rect`: the rectangle from the origin with this size. -/
def Size.toRect (s : Size) : Rect := ⟨0, 0, s.w, s.h⟩

/-! ## Images and the cropper -/

/-- One RGBA8 pixel (four byte channels, as in `image::Rgba<u8>`). -/
structure Pixel where
  r : ℕ
  g : ℕ
  b : ℕ
  a : ℕ
deriving DecidableEq, Repr

/-- A pixel image, modelling `image::DynamicImage` at the granularity the
claims need: dimensions plus the pixel at each coordinate. -/
structure SourceImage where
  width : ℕ
  height : ℕ
  pixelAt : ℕ → ℕ → Pixel

/-- An owned RGBA8 buffer, modelling `ImageBuffer<Rgba<u8>, Vec<u8>>`:
`data` lists the pixels row-major, pixel `(i, j)` at index `j * width + i`. -/
structure RgbaBuffer where
  width : ℕ
  height : ℕ
  data : List Pixel

/-- `DynamicImage::to_rgba8`: materialize the pixels row-major. -/
def SourceImage.toRgba8 (img : SourceImage) : RgbaBuffer :=
  { width := img.width, height := img.height,
    data := (List.range (img.height * img.width)).map fun k =>
      img.pixelAt (k % img.width) (k / img.width) }

/-- `image::imageops::crop_dimms`: clamp a crop request to the image bounds
(`x.min(iwidth)`, `y.min(iheight)`, then `height.min(iheight - y)`,
`width.min(iwidth - x)`). -/
def cropDimms (img : SourceImage) (x y width height : ℕ) : ℕ × ℕ × ℕ × ℕ :=
  (min x img.width, min y img.height,
   min width (img.width - min x img.width),
   min height (img.height - min y img.height))

/-- `DynamicImage::crop_imm`: the sub-image at the clamped crop rectangle;
its pixel `(i, j)` is the source pixel `(x + i, y + j)`. -/
def SourceImage.crop_imm (img : SourceImage) (x y width height : ℕ) : SourceImage :=
  { width := (cropDimms img x y width height).2.2.1,
    height := (cropDimms img x y width height).2.2.2,
    pixelAt := fun i j =>
      img.pixelAt ((cropDimms img x y width height).1 + i)
        ((cropDimms img x y width height).2.1 + j) }

/-- Rust's `as u32` cast on an `f64`: truncation toward zero, saturating at
`0` and `u32::MAX`.  (On the non-negative values produced by `.max(0.0)` and
by normalized widths, truncation toward zero is the floor.) -/
def f64ToU32 (q : ℚ) : ℕ := min (⌊q⌋.toNat) (2 ^ 32 - 1)

/-! ## Application state (`AppState`) -/

/-- `AppState` from `main.rs`: the screenshot, the drag flag, the drag
endpoints and the committed selection. -/
structure AppState where
  screenshot : SourceImage
  is_selecting : Bool
  start_pos : Point
  current_pos : Point
  selection_rect : Option Rect

/-- `AppState::get_current_selection`:
`Rect::from_points(self.start_pos, self.current_pos).abs()`. -/
def AppState.get_current_selection (s : AppState) : Rect :=
  (Rect.fromPoints s.start_pos s.current_pos).abs

/-- `AppState::crop_image`: crop the screenshot to the committed rectangle
(`crop_imm(x0.max(0) as u32, y0.max(0) as u32, width as u32, height as u32)`)
and convert to RGBA8; `None` when there is no committed rectangle. -/
def AppState.crop_image (s : AppState) : Option RgbaBuffer :=
  s.selection_rect.map fun rect =>
    (s.screenshot.crop_imm (f64ToU32 (max rect.x0 0)) (f64ToU32 (max rect.y0 0))
      (f64ToU32 rect.width) (f64ToU32 rect.height)).toRgba8

/-! ## The widget event handler -/

/-- The pointer/keyboard events `ScreenshotWidget::event` distinguishes. -/
inductive Event where
  | mouseDownLeft (p : Point)
  | mouseDownRight (p : Point)
  | mouseMove (p : Point)
  | mouseUpLeft (p : Point)
  | mouseUpRight (p : Point)
  | keyEscape

/-- The observable calls the handler makes on the `EventCtx`. -/
inductive Effect where
  | requestPaint
  | requestPaintRect (r : Rect)
  | showContextMenu (p : Point)
  | quitApp
deriving DecidableEq, Repr

/-- `ScreenshotWidget::event`, as a function of the widget size
(`ctx.size()`), the widget-local cache `self.previous_rect`, the event and
the `AppState`; returns the new `previous_rect`, the new `AppState` and the
list of `EventCtx` calls in order. -/
def event (frame : Size) (prev : Option Rect) (e : Event) (data : AppState) :
    Option Rect × AppState × List Effect :=
  match e with
  | .mouseDownLeft p =>
    let data := { data with is_selecting := true, start_pos := p, current_pos := p,
                            selection_rect := none }
    (some data.get_current_selection, data, [.requestPaint])
  | .mouseMove p =>
    if data.is_selecting then
      let old_rect := prev.getD data.get_current_selection
      let data := { data with current_pos := p }
      let new_rect := data.get_current_selection
      let dirty_region := (old_rect.union new_rect).inset (-2)
      (some new_rect, data, [.requestPaintRect dirty_region])
    else (prev, data, [])
  | .mouseUpLeft p =>
    if data.is_selecting then
      let data := { data with is_selecting := false }
      let selection := data.get_current_selection
      if (1 : ℚ) < selection.width ∧ (1 : ℚ) < selection.height then
        (prev, { data with selection_rect := some selection },
          [.showContextMenu p, .requestPaint])
      else
        (prev, { data with selection_rect := none }, [.requestPaint])
    else (prev, data, [])
  | .mouseUpRight _ => (prev, data, [])
  | .mouseDownRight p =>
    if data.selection_rect.isNone then
      (prev, { data with selection_rect := some frame.toRect },
        [.requestPaint, .showContextMenu p])
    else
      (prev, data, [.showContextMenu p])
  | .keyEscape => (prev, data, [.quitApp])

/-- The state part of one handler step (widget cache and `AppState`),
dropping the effect list. -/
def stepData (frame : Size) (ws : Option Rect × AppState) (e : Event) :
    Option Rect × AppState :=
  let r := event frame ws.1 e ws.2
  (r.1, r.2.1)

/-! ## Overlay mask geometry (from `ScreenshotWidget::paint`) -/

/-- Top mask: `Rect::new(0.0, 0.0, full_rect.width(), r.y0)`. -/
def maskTop (frame : Size) (r : Rect) : Rect := Rect.new 0 0 frame.w r.y0

/-- Bottom mask: `Rect::new(0.0, r.y1, full_rect.width(), full_rect.height())`. -/
def maskBottom (frame : Size) (r : Rect) : Rect := Rect.new 0 r.y1 frame.w frame.h

/-- Left mask: `Rect::new(0.0, r.y0, r.x0, r.y1)`. -/
def maskLeft (r : Rect) : Rect := Rect.new 0 r.y0 r.x0 r.y1

/-- Right mask: `Rect::new(r.x1, r.y0, full_rect.width(), r.y1)`. -/
def maskRight (frame : Size) (r : Rect) : Rect := Rect.new r.x1 r.y0 frame.w r.y1

/-! ## Spec-modelled clamping (not present in the source) -/

/-- Modelled from the spec: `clamp_to_bounds(rect, image_w, image_h)` "clips
`rect` to `[0,image_w) × [0,image_h)`"; a rectangle fully outside the bounds
collapses to a zero-area rectangle at the nearest clamped corner.  The source
has no such function; this definition exists only to compare the spec's
commit contract with what the code stores. -/
def clamp_to_bounds (r : Rect) (image_w image_h : ℚ) : Rect :=
  ⟨min (max r.x0 0) image_w, min (max r.y0 0) image_h,
   min (max r.x1 0) image_w, min (max r.y1 0) image_h⟩

/-! ## Concrete example data, used by witnesses and counterexamples -/

/-- A 100×100 all-black screenshot. -/
def imgEx : SourceImage := ⟨100, 100, fun _ _ => ⟨0, 0, 0, 255⟩⟩

/-- The matching 100×100 widget size. -/
def szEx : Size := ⟨100, 100⟩

/-! ## Claims -/

/-- **C8.** `normalize` (the code's `Rect::from_points(p0, p1).abs()`, as in
`AppState::get_current_selection`) returns the rectangle with corner
`(min p0.x p1.x, min p0.y p1.y)`, width `|p1.x - p0.x|` and height
`|p1.y - p0.y|`; width and height are always nonnegative, and the function
is symmetric in its two arguments. -/
theorem normalize_minmax_symm (p0 p1 : Point) :
    Rect.fromPoints p0 p1 =
      ⟨min p0.x p1.x, min p0.y p1.y, max p0.x p1.x, max p0.y p1.y⟩ ∧
    (Rect.fromPoints p0 p1).width = |p1.x - p0.x| ∧
    (Rect.fromPoints p0 p1).height = |p1.y - p0.y| ∧
    0 ≤ (Rect.fromPoints p0 p1).width ∧ 0 ≤ (Rect.fromPoints p0 p1).height ∧
    Rect.fromPoints p0 p1 = Rect.fromPoints p1 p0 := by
  unfold Rect.fromPoints Rect.new Rect.abs Rect.width Rect.height
  refine ⟨rfl, ?_, ?_, ?_, ?_, ?_⟩
  · simpa using (abs_sub_comm p0.x p1.x) ▸ (max_sub_min_eq_abs p0.x p1.x)
  · simpa using (abs_sub_comm p0.y p1.y) ▸ (max_sub_min_eq_abs p0.y p1.y)
  · exact sub_nonneg.mpr (min_le_max (a := p0.x) (b := p1.x))
  · exact sub_nonneg.mpr (min_le_max (a := p0.y) (b := p1.y))
  · simp [min_comm, max_comm]

/-- **C9.** The `MouseUp` handler's resulting selection state does not
depend on the pointer-up position: both the threshold test and the stored
rectangle are computed from `start_pos` and `current_pos`, never from
`e.pos`. -/
theorem mouseUp_pos_independent (frame : Size) (prev : Option Rect)
    (s : AppState) (p1 p2 : Point) :
    (event frame prev (.mouseUpLeft p1) s).2.1 =
      (event frame prev (.mouseUpLeft p2) s).2.1 := by
  unfold event
  dsimp only
  split_ifs <;> rfl

/-- **C10.** A right `MouseDown` while a committed rectangle exists leaves
the widget cache and every `AppState` field unchanged; its only effect is
showing the context menu at the click position. -/
theorem rightDown_committed_noop (frame : Size) (prev : Option Rect)
    (s : AppState) (A : Rect) (p : Point) (h : s.selection_rect = some A) :
    event frame prev (.mouseDownRight p) s = (prev, s, [.showContextMenu p]) := by
  unfold event
  dsimp only
  rw [if_neg]
  simp [h]

/-- Witness for C10 at a concrete committed state. -/
theorem rightDown_committed_noop_witness :
    ({ screenshot := imgEx, is_selecting := false, start_pos := ⟨0, 0⟩,
       current_pos := ⟨0, 0⟩, selection_rect := some ⟨1, 2, 3, 4⟩ } :
        AppState).selection_rect = some ⟨1, 2, 3, 4⟩ ∧
    event szEx none (.mouseDownRight ⟨5, 6⟩)
      { screenshot := imgEx, is_selecting := false, start_pos := ⟨0, 0⟩,
        current_pos := ⟨0, 0⟩, selection_rect := some ⟨1, 2, 3, 4⟩ } =
      (none,
       { screenshot := imgEx, is_selecting := false, start_pos := ⟨0, 0⟩,
         current_pos := ⟨0, 0⟩, selection_rect := some ⟨1, 2, 3, 4⟩ },
       [.showContextMenu ⟨5, 6⟩]) :=
  ⟨rfl, rightDown_committed_noop szEx none _ ⟨1, 2, 3, 4⟩ ⟨5, 6⟩ rfl⟩

/-- **C7.** A right `MouseDown` in any state with no committed rectangle
commits exactly the full frame bounds (`ctx.size().to_rect()`), with no
size validation (the theorem holds for every frame and every state). -/
theorem rightDown_whole_image (frame : Size) (prev : Option Rect)
    (s : AppState) (p : Point) (h : s.selection_rect = none) :
    (event frame prev (.mouseDownRight p) s).2.1.selection_rect =
      some frame.toRect ∧
    (event frame prev (.mouseDownRight p) s).2.2 =
      [.requestPaint, .showContextMenu p] := by
  unfold event
  dsimp only
  rw [if_pos]
  · exact ⟨rfl, rfl⟩
  · simp [h]

/-- Witness for C7 at a concrete idle state. -/
theorem rightDown_whole_image_witness :
    ({ screenshot := imgEx, is_selecting := false, start_pos := ⟨0, 0⟩,
       current_pos := ⟨0, 0⟩, selection_rect := none } :
        AppState).selection_rect = none ∧
    ((event szEx none (.mouseDownRight ⟨5, 6⟩)
        { screenshot := imgEx, is_selecting := false, start_pos := ⟨0, 0⟩,
          current_pos := ⟨0, 0⟩, selection_rect := none }).2.1.selection_rect =
      some szEx.toRect ∧
    (event szEx none (.mouseDownRight ⟨5, 6⟩)
        { screenshot := imgEx, is_selecting := false, start_pos := ⟨0, 0⟩,
          current_pos := ⟨0, 0⟩, selection_rect := none }).2.2 =
      [.requestPaint, .showContextMenu ⟨5, 6⟩]) :=
  ⟨rfl, rightDown_whole_image szEx none _ ⟨5, 6⟩ rfl⟩

/-- A dragging state: left button went down at `(10,10)`, the pointer has
moved to `(50,40)`. -/
def dragEx : AppState :=
  { screenshot := imgEx, is_selecting := true, start_pos := ⟨10, 10⟩,
    current_pos := ⟨50, 40⟩, selection_rect := none }

/-- **C1.** From any dragging state, `MouseUp` commits a rectangle iff the
drag's normalized rectangle has width and height strictly greater than `1.0`;
otherwise the state is idle again (`is_selecting = false`) with
`selection_rect = None`. -/
theorem mouseUp_commit_iff_threshold (frame : Size) (prev : Option Rect)
    (s : AppState) (p : Point) (h : s.is_selecting = true) :
    (event frame prev (.mouseUpLeft p) s).2.1.is_selecting = false ∧
    ((∃ r, (event frame prev (.mouseUpLeft p) s).2.1.selection_rect = some r) ↔
      ((1 : ℚ) < s.get_current_selection.width ∧
       (1 : ℚ) < s.get_current_selection.height)) ∧
    (((1 : ℚ) < s.get_current_selection.width ∧
      (1 : ℚ) < s.get_current_selection.height) →
      (event frame prev (.mouseUpLeft p) s).2.1.selection_rect =
        some s.get_current_selection) ∧
    (¬ ((1 : ℚ) < s.get_current_selection.width ∧
        (1 : ℚ) < s.get_current_selection.height) →
      (event frame prev (.mouseUpLeft p) s).2.1.selection_rect = none) := by
  simp only [event]
  rw [if_pos h]
  split_ifs with hthr
  · exact ⟨rfl, ⟨fun _ => hthr, fun _ => ⟨_, rfl⟩⟩, fun _ => rfl,
      fun hn => absurd hthr hn⟩
  · refine ⟨rfl, ⟨?_, fun h2 => absurd h2 hthr⟩, fun h2 => absurd h2 hthr,
      fun _ => rfl⟩
    rintro ⟨r, hr⟩
    exact hr.elim

/-- Witness for C1 at the spec's accepted example: a drag from `(10,10)` to
`(50,40)`. -/
theorem mouseUp_commit_iff_threshold_witness :
    dragEx.is_selecting = true ∧
    ((event szEx none (.mouseUpLeft ⟨50, 40⟩) dragEx).2.1.is_selecting = false ∧
    ((∃ r, (event szEx none (.mouseUpLeft ⟨50, 40⟩) dragEx).2.1.selection_rect =
        some r) ↔
      ((1 : ℚ) < dragEx.get_current_selection.width ∧
       (1 : ℚ) < dragEx.get_current_selection.height)) ∧
    (((1 : ℚ) < dragEx.get_current_selection.width ∧
      (1 : ℚ) < dragEx.get_current_selection.height) →
      (event szEx none (.mouseUpLeft ⟨50, 40⟩) dragEx).2.1.selection_rect =
        some dragEx.get_current_selection) ∧
    (¬ ((1 : ℚ) < dragEx.get_current_selection.width ∧
        (1 : ℚ) < dragEx.get_current_selection.height) →
      (event szEx none (.mouseUpLeft ⟨50, 40⟩) dragEx).2.1.selection_rect =
        none)) :=
  ⟨rfl, mouseUp_commit_iff_threshold szEx none dragEx ⟨50, 40⟩ rfl⟩

/-- A dragging state whose current position lies outside the 100×100 image. -/
def overEx : AppState :=
  { screenshot := imgEx, is_selecting := true, start_pos := ⟨0, 0⟩,
    current_pos := ⟨150, 120⟩, selection_rect := none }

/-- **C2, counterexample.** Committing a drag whose endpoint lies outside the
100×100 image stores the unclamped rectangle `(0,0)–(150,120)`, which is not
`clamp_to_bounds(normalize(start, current), 100, 100)`: the commit does not
clip to the image bounds. -/
theorem commit_rect_clamped_cex :
    (event szEx none (.mouseUpLeft ⟨150, 120⟩) overEx).2.1.selection_rect =
      some ⟨0, 0, 150, 120⟩ ∧
    (event szEx none (.mouseUpLeft ⟨150, 120⟩) overEx).2.1.selection_rect ≠
      some (clamp_to_bounds overEx.get_current_selection 100 100) := by
  have hsel : overEx.get_current_selection = (⟨0, 0, 150, 120⟩ : Rect) := by decide
  have hthr : (1 : ℚ) < overEx.get_current_selection.width ∧
      (1 : ℚ) < overEx.get_current_selection.height := by
    rw [hsel]
    unfold Rect.width Rect.height
    norm_num
  have h1 : (event szEx none (.mouseUpLeft ⟨150, 120⟩) overEx).2.1.selection_rect =
      some overEx.get_current_selection := by
    simp only [event]
    rw [if_pos (show overEx.is_selecting = true from rfl)]
    split_ifs with h2
    · rfl
    · exact absurd hthr h2
  refine ⟨by rw [h1, hsel], ?_⟩
  rw [h1, hsel]
  unfold clamp_to_bounds
  norm_num

/-- **C2, amended.** What the code actually stores at commit time is the
UNCLAMPED `normalize(start, current)`; clipping into the image happens only
later, at crop time, where `crop_imm`'s dimension clamping keeps the read
window inside the image bounds. -/
theorem commit_rect_unclamped (frame : Size) (prev : Option Rect)
    (s : AppState) (p : Point) (h : s.is_selecting = true)
    (hthr : (1 : ℚ) < s.get_current_selection.width ∧
      (1 : ℚ) < s.get_current_selection.height) :
    (event frame prev (.mouseUpLeft p) s).2.1.selection_rect =
      some s.get_current_selection ∧
    ∀ (img : SourceImage) (cx cy cw ch : ℕ),
      (cropDimms img cx cy cw ch).1 + (cropDimms img cx cy cw ch).2.2.1 ≤
        img.width ∧
      (cropDimms img cx cy cw ch).2.1 + (cropDimms img cx cy cw ch).2.2.2 ≤
        img.height := by
  constructor
  · simp only [event]
    rw [if_pos h]
    split_ifs with h2
    · rfl
    · exact absurd hthr h2
  · intro img cx cy cw ch
    dsimp only [cropDimms]
    omega

/-- The threshold condition holds for the example drag `(10,10)`–`(50,40)`. -/
theorem dragEx_threshold :
    (1 : ℚ) < dragEx.get_current_selection.width ∧
    (1 : ℚ) < dragEx.get_current_selection.height := by
  have hsel : dragEx.get_current_selection = (⟨10, 10, 50, 40⟩ : Rect) := by decide
  rw [hsel]
  unfold Rect.width Rect.height
  norm_num

/-- Witness for the amended C2 at the example drag. -/
theorem commit_rect_unclamped_witness :
    dragEx.is_selecting = true ∧
    ((1 : ℚ) < dragEx.get_current_selection.width ∧
      (1 : ℚ) < dragEx.get_current_selection.height) ∧
    ((event szEx none (.mouseUpLeft ⟨50, 40⟩) dragEx).2.1.selection_rect =
      some dragEx.get_current_selection ∧
    ∀ (img : SourceImage) (cx cy cw ch : ℕ),
      (cropDimms img cx cy cw ch).1 + (cropDimms img cx cy cw ch).2.2.1 ≤
        img.width ∧
      (cropDimms img cx cy cw ch).2.1 + (cropDimms img cx cy cw ch).2.2.2 ≤
        img.height) :=
  ⟨rfl, dragEx_threshold,
    commit_rect_unclamped szEx none dragEx ⟨50, 40⟩ rfl dragEx_threshold⟩

/-- A dragging state from `(0,0)` with the pointer at `(10,10)`. -/
def dragEx3 : AppState :=
  { screenshot := imgEx, is_selecting := true, start_pos := ⟨0, 0⟩,
    current_pos := ⟨10, 10⟩, selection_rect := none }

/-- **C3.** At a concrete `MouseMove`, the dirty region the handler passes to
`request_paint_rect` is the union of the previous and new selection rectangles
SHRUNK by 2 on every side (`inset(-2.0)`; in kurbo a positive inset grows a
rectangle, so `-2.0` shrinks it), not grown: here the union is
`(0,0)–(10,10)` but the requested region is `(2,2)–(8,8)`, which misses the
border point `(0,0)` that lies in the union.  This contradicts the handler's
own comment, which says the call slightly enlarges the region so the border
is repainted in full. -/
theorem moveDirty_inset_shrinks_bug :
    (event szEx (some ⟨0, 0, 10, 10⟩) (.mouseMove ⟨10, 10⟩) dragEx3).2.2 =
      [.requestPaintRect (Rect.inset ⟨0, 0, 10, 10⟩ (-2))] ∧
    Rect.inset ⟨0, 0, 10, 10⟩ (-2) = ⟨2, 2, 8, 8⟩ ∧
    Rect.contains ⟨0, 0, 10, 10⟩ 0 0 ∧ ¬ Rect.contains ⟨2, 2, 8, 8⟩ 0 0 := by
  refine ⟨rfl, ?_, by decide, by decide⟩
  unfold Rect.inset
  norm_num

/-- **C4.** For a frame of size `frame` and any normalized selection rectangle
contained in it, the four mask rectangles painted by `ScreenshotWidget::paint`
tile the frame together with the selection: they are pairwise disjoint (also
from the selection) as sets of covered pixels, their union with the selection
covers the frame exactly, and the five areas sum to the frame's area. -/
theorem mask_rects_tile_frame (frame : Size) (r : Rect)
    (hx0 : 0 ≤ r.x0) (hxx : r.x0 ≤ r.x1) (hx1 : r.x1 ≤ frame.w)
    (hy0 : 0 ≤ r.y0) (hyy : r.y0 ≤ r.y1) (hy1 : r.y1 ≤ frame.h) :
    (∀ px py : ℚ,
      ¬ ((maskTop frame r).contains px py ∧ (maskBottom frame r).contains px py)) ∧
    (∀ px py : ℚ,
      ¬ ((maskTop frame r).contains px py ∧ (maskLeft r).contains px py)) ∧
    (∀ px py : ℚ,
      ¬ ((maskTop frame r).contains px py ∧ (maskRight frame r).contains px py)) ∧
    (∀ px py : ℚ, ¬ ((maskTop frame r).contains px py ∧ r.contains px py)) ∧
    (∀ px py : ℚ,
      ¬ ((maskBottom frame r).contains px py ∧ (maskLeft r).contains px py)) ∧
    (∀ px py : ℚ,
      ¬ ((maskBottom frame r).contains px py ∧ (maskRight frame r).contains px py)) ∧
    (∀ px py : ℚ, ¬ ((maskBottom frame r).contains px py ∧ r.contains px py)) ∧
    (∀ px py : ℚ,
      ¬ ((maskLeft r).contains px py ∧ (maskRight frame r).contains px py)) ∧
    (∀ px py : ℚ, ¬ ((maskLeft r).contains px py ∧ r.contains px py)) ∧
    (∀ px py : ℚ, ¬ ((maskRight frame r).contains px py ∧ r.contains px py)) ∧
    (∀ px py : ℚ, frame.toRect.contains px py ↔
      ((maskTop frame r).contains px py ∨ (maskBottom frame r).contains px py ∨
       (maskLeft r).contains px py ∨ (maskRight frame r).contains px py ∨
       r.contains px py)) ∧
    (maskTop frame r).area + (maskBottom frame r).area + (maskLeft r).area +
      (maskRight frame r).area + r.area = frame.toRect.area := by
  unfold maskTop maskBottom maskLeft maskRight Rect.new Rect.contains Rect.area
    Rect.width Rect.height Size.toRect
  dsimp only
  refine ⟨?_, ?_, ?_, ?_, ?_, ?_, ?_, ?_, ?_, ?_, ?_, by ring⟩
  all_goals try (rintro px py ⟨⟨h1, h2, h3, h4⟩, h5, h6, h7, h8⟩; linarith)
  intro px py
  constructor
  · rintro ⟨hpx0, hpx1, hpy0, hpy1⟩
    rcases lt_or_le py r.y0 with hy | hy
    · exact Or.inl ⟨hpx0, hpx1, hpy0, hy⟩
    rcases le_or_lt r.y1 py with hy' | hy'
    · exact Or.inr (Or.inl ⟨hpx0, hpx1, hy', hpy1⟩)
    rcases lt_or_le px r.x0 with hx | hx
    · exact Or.inr (Or.inr (Or.inl ⟨hpx0, hx, hy, hy'⟩))
    rcases le_or_lt r.x1 px with hx' | hx'
    · exact Or.inr (Or.inr (Or.inr (Or.inl ⟨hx', hpx1, hy, hy'⟩)))
    · exact Or.inr (Or.inr (Or.inr (Or.inr ⟨hx, hx', hy, hy'⟩)))
  · rintro (⟨h1, h2, h3, h4⟩ | ⟨h1, h2, h3, h4⟩ | ⟨h1, h2, h3, h4⟩ |
      ⟨h1, h2, h3, h4⟩ | ⟨h1, h2, h3, h4⟩) <;>
      exact ⟨by linarith, by linarith, by linarith, by linarith⟩

/-- Witness for C4: the selection `(10,10)–(50,40)` inside a 100×100 frame;
the theorem is applied at this input and its area identity is evaluated. -/
theorem mask_rects_tile_frame_witness :
    ((0 : ℚ) ≤ (10 : ℚ) ∧ (10 : ℚ) ≤ (50 : ℚ) ∧ (50 : ℚ) ≤ (100 : ℚ) ∧
     (0 : ℚ) ≤ (10 : ℚ) ∧ (10 : ℚ) ≤ (40 : ℚ) ∧ (40 : ℚ) ≤ (100 : ℚ)) ∧
    ((maskTop szEx ⟨10, 10, 50, 40⟩).area + (maskBottom szEx ⟨10, 10, 50, 40⟩).area +
      (maskLeft ⟨10, 10, 50, 40⟩).area + (maskRight szEx ⟨10, 10, 50, 40⟩).area +
      (⟨10, 10, 50, 40⟩ : Rect).area = szEx.toRect.area) :=
  ⟨⟨by decide, by decide, by decide, by decide, by decide, by decide⟩,
    (mask_rects_tile_frame szEx ⟨10, 10, 50, 40⟩ (by decide) (by decide)
      (by decide) (by decide) (by decide) (by decide)).2.2.2.2.2.2.2.2.2.2.2⟩

/-- **C5.** Cropping a committed rectangle that lies within the source bounds
yields an RGBA8 buffer of exactly `w × h` pixels whose pixel `(i, j)` is the
source pixel `(x + i, y + j)`, where `x`, `y`, `w`, `h` are the rectangle's
coordinates after `max(0, ·)` and truncation to `u32`. -/
theorem crop_image_roundtrip (s : AppState) (rect : Rect) (x y w h : ℕ)
    (d : Pixel) (hrect : s.selection_rect = some rect)
    (hx : f64ToU32 (max rect.x0 0) = x) (hy : f64ToU32 (max rect.y0 0) = y)
    (hw : f64ToU32 rect.width = w) (hh : f64ToU32 rect.height = h)
    (hbw : x + w ≤ s.screenshot.width) (hbh : y + h ≤ s.screenshot.height) :
    ∃ buf, s.crop_image = some buf ∧ buf.width = w ∧ buf.height = h ∧
      buf.data.length = w * h ∧
      ∀ i j, i < w → j < h →
        buf.data.getD (j * w + i) d = s.screenshot.pixelAt (x + i) (y + j) := by
  have hdim : cropDimms s.screenshot x y w h = (x, y, w, h) := by
    unfold cropDimms
    rw [min_eq_left (show x ≤ s.screenshot.width by omega),
      min_eq_left (show y ≤ s.screenshot.height by omega),
      min_eq_left (show w ≤ s.screenshot.width - x by omega),
      min_eq_left (show h ≤ s.screenshot.height - y by omega)]
  have himg : s.screenshot.crop_imm x y w h =
      { width := w, height := h,
        pixelAt := fun i j => s.screenshot.pixelAt (x + i) (y + j) } := by
    unfold SourceImage.crop_imm
    rw [hdim]
  have hcrop : s.crop_image = some ((s.screenshot.crop_imm x y w h).toRgba8) := by
    unfold AppState.crop_image
    rw [hrect, Option.map_some', hx, hy, hw, hh]
  rw [himg] at hcrop
  refine ⟨_, hcrop, rfl, rfl, ?_, ?_⟩
  · simp only [SourceImage.toRgba8, List.length_map, List.length_range]
    exact Nat.mul_comm h w
  · intro i j hi hj
    have hw0 : 0 < w := Nat.lt_of_le_of_lt (Nat.zero_le i) hi
    have hidx : j * w + i < h * w := by
      calc j * w + i < j * w + w := by omega
        _ = (j + 1) * w := by ring
        _ ≤ h * w := Nat.mul_le_mul_right w hj
    unfold SourceImage.toRgba8
    dsimp only
    rw [List.getD_eq_getElem?_getD, List.getElem?_map, List.getElem?_range hidx,
      Option.map_some', Option.getD_some]
    have hmod : (j * w + i) % w = i := by
      rw [Nat.add_comm, Nat.add_mul_mod_self_right, Nat.mod_eq_of_lt hi]
    have hdiv : (j * w + i) / w = j := by
      rw [Nat.add_comm, Nat.add_mul_div_right i j hw0, Nat.div_eq_of_lt hi,
        Nat.zero_add]
    rw [hmod, hdiv]

/-- A 200×150 source image whose pixel values encode their coordinates. -/
def imgBig : SourceImage := ⟨200, 150, fun i j => ⟨i % 256, j % 256, 0, 255⟩⟩

/-- A state holding the committed rectangle `{x:20, y:20, w:50, h:40}` over
the 200×150 source. -/
def stCrop : AppState :=
  { screenshot := imgBig, is_selecting := false, start_pos := ⟨0, 0⟩,
    current_pos := ⟨0, 0⟩, selection_rect := some ⟨20, 20, 70, 60⟩ }

/-- The crop rectangle's width and height truncate to 50 and 40. -/
theorem stCrop_rect_dims :
    f64ToU32 (Rect.width ⟨20, 20, 70, 60⟩) = 50 ∧
    f64ToU32 (Rect.height ⟨20, 20, 70, 60⟩) = 40 := by
  unfold f64ToU32 Rect.width Rect.height
  norm_num
  exact ⟨rfl, rfl⟩

/-- Witness for C5 at the spec's example: source 200×150, rectangle
`{x:20, y:20, w:50, h:40}`. -/
theorem crop_image_roundtrip_witness :
    (stCrop.selection_rect = some ⟨20, 20, 70, 60⟩ ∧
     f64ToU32 (max (Rect.x0 ⟨20, 20, 70, 60⟩) 0) = 20 ∧
     f64ToU32 (max (Rect.y0 ⟨20, 20, 70, 60⟩) 0) = 20 ∧
     f64ToU32 (Rect.width ⟨20, 20, 70, 60⟩) = 50 ∧
     f64ToU32 (Rect.height ⟨20, 20, 70, 60⟩) = 40 ∧
     20 + 50 ≤ stCrop.screenshot.width ∧ 20 + 40 ≤ stCrop.screenshot.height) ∧
    ∃ buf, stCrop.crop_image = some buf ∧ buf.width = 50 ∧ buf.height = 40 ∧
      buf.data.length = 50 * 40 ∧
      ∀ i j, i < 50 → j < 40 →
        buf.data.getD (j * 50 + i) ⟨0, 0, 0, 0⟩ =
          stCrop.screenshot.pixelAt (20 + i) (20 + j) :=
  ⟨⟨rfl, by decide, by decide, stCrop_rect_dims.1, stCrop_rect_dims.2,
      by decide, by decide⟩,
    crop_image_roundtrip stCrop ⟨20, 20, 70, 60⟩ 20 20 50 40 ⟨0, 0, 0, 0⟩ rfl
      (by decide) (by decide) stCrop_rect_dims.1 stCrop_rect_dims.2
      (by decide) (by decide)⟩

/-- Folding `MouseMove` events over a dragging state keeps `is_selecting`
set and leaves `selection_rect` untouched. -/
theorem moveFold_keeps_selecting (frame : Size) (moves : List Point)
    (ws : Option Rect × AppState) (h : ws.2.is_selecting = true) :
    (moves.foldl (fun a m => stepData frame a (.mouseMove m)) ws).2.is_selecting =
      true ∧
    (moves.foldl (fun a m => stepData frame a (.mouseMove m)) ws).2.selection_rect =
      ws.2.selection_rect := by
  induction moves generalizing ws with
  | nil => exact ⟨h, rfl⟩
  | cons m ms ih =>
    rw [List.foldl_cons]
    have hstep : (stepData frame ws (.mouseMove m)).2.is_selecting = true ∧
        (stepData frame ws (.mouseMove m)).2.selection_rect =
          ws.2.selection_rect := by
      simp only [stepData, event]
      rw [if_pos h]
      exact ⟨h, rfl⟩
    obtain ⟨ih1, ih2⟩ := ih (stepData frame ws (.mouseMove m)) hstep.1
    exact ⟨ih1, ih2.trans hstep.2⟩

/-- A sub-threshold `MouseUp` on any dragging state clears the selection. -/
theorem mouseUp_reject (frame : Size) (ws : Option Rect × AppState) (q : Point)
    (h : ws.2.is_selecting = true)
    (hthr : ¬ ((1 : ℚ) < ws.2.get_current_selection.width ∧
      (1 : ℚ) < ws.2.get_current_selection.height)) :
    (stepData frame ws (.mouseUpLeft q)).2.selection_rect = none := by
  simp only [stepData, event]
  rw [if_pos h]
  split_ifs with h2
  · exact absurd h2 hthr
  · rfl

/-- **C6.** A left `MouseDown` in a state holding a committed rectangle `A`
discards `A` and starts a fresh drag at the press position; after any
sequence of `MouseMove`s, a sub-threshold `MouseUp` leaves no committed
rectangle (in particular not `A`), and neither does `Escape`. -/
theorem redrag_discards_committed (frame : Size) (prev : Option Rect)
    (s : AppState) (A : Rect) (p : Point) (_hA : s.selection_rect = some A) :
    (stepData frame (prev, s) (.mouseDownLeft p)).2.selection_rect = none ∧
    (stepData frame (prev, s) (.mouseDownLeft p)).2.is_selecting = true ∧
    (stepData frame (prev, s) (.mouseDownLeft p)).2.start_pos = p ∧
    (stepData frame (prev, s) (.mouseDownLeft p)).2.current_pos = p ∧
    (∀ (moves : List Point) (q : Point),
      ¬ ((1 : ℚ) < ((moves.foldl (fun a m => stepData frame a (.mouseMove m))
              (stepData frame (prev, s)
                (.mouseDownLeft p))).2.get_current_selection).width ∧
         (1 : ℚ) < ((moves.foldl (fun a m => stepData frame a (.mouseMove m))
              (stepData frame (prev, s)
                (.mouseDownLeft p))).2.get_current_selection).height) →
      (stepData frame
        (moves.foldl (fun a m => stepData frame a (.mouseMove m))
          (stepData frame (prev, s) (.mouseDownLeft p)))
        (.mouseUpLeft q)).2.selection_rect = none) ∧
    (∀ moves : List Point,
      (stepData frame
        (moves.foldl (fun a m => stepData frame a (.mouseMove m))
          (stepData frame (prev, s) (.mouseDownLeft p)))
        .keyEscape).2.selection_rect = none) := by
  refine ⟨rfl, rfl, rfl, rfl, ?_, ?_⟩
  · intro moves q hthr
    exact mouseUp_reject frame
      (moves.foldl (fun a m => stepData frame a (.mouseMove m))
        (stepData frame (prev, s) (.mouseDownLeft p))) q
      (moveFold_keeps_selecting frame moves
        (stepData frame (prev, s) (.mouseDownLeft p)) rfl).1 hthr
  · intro moves
    exact (moveFold_keeps_selecting frame moves
      (stepData frame (prev, s) (.mouseDownLeft p)) rfl).2

/-- A state with the committed rectangle `(1,2)–(3,4)`. -/
def committedEx : AppState :=
  { screenshot := imgEx, is_selecting := false, start_pos := ⟨0, 0⟩,
    current_pos := ⟨0, 0⟩, selection_rect := some ⟨1, 2, 3, 4⟩ }

/-- Witness for C6: applying the theorem to the committed state
`committedEx` and a press at `(5,6)`. -/
theorem redrag_discards_committed_witness :
    committedEx.selection_rect = some ⟨1, 2, 3, 4⟩ ∧
    ((stepData szEx (none, committedEx) (.mouseDownLeft ⟨5, 6⟩)).2.selection_rect =
        none ∧
    (stepData szEx (none, committedEx) (.mouseDownLeft ⟨5, 6⟩)).2.is_selecting =
        true ∧
    (stepData szEx (none, committedEx) (.mouseDownLeft ⟨5, 6⟩)).2.start_pos =
        ⟨5, 6⟩ ∧
    (stepData szEx (none, committedEx) (.mouseDownLeft ⟨5, 6⟩)).2.current_pos =
        ⟨5, 6⟩ ∧
    (∀ (moves : List Point) (q : Point),
      ¬ ((1 : ℚ) < ((moves.foldl (fun a m => stepData szEx a (.mouseMove m))
              (stepData szEx (none, committedEx)
                (.mouseDownLeft ⟨5, 6⟩))).2.get_current_selection).width ∧
         (1 : ℚ) < ((moves.foldl (fun a m => stepData szEx a (.mouseMove m))
              (stepData szEx (none, committedEx)
                (.mouseDownLeft ⟨5, 6⟩))).2.get_current_selection).height) →
      (stepData szEx
        (moves.foldl (fun a m => stepData szEx a (.mouseMove m))
          (stepData szEx (none, committedEx) (.mouseDownLeft ⟨5, 6⟩)))
        (.mouseUpLeft q)).2.selection_rect = none) ∧
    (∀ moves : List Point,
      (stepData szEx
        (moves.foldl (fun a m => stepData szEx a (.mouseMove m))
          (stepData szEx (none, committedEx) (.mouseDownLeft ⟨5, 6⟩)))
        .keyEscape).2.selection_rect = none)) :=
  ⟨rfl, redrag_discards_committed szEx none committedEx ⟨1, 2, 3, 4⟩ ⟨5, 6⟩ rfl⟩

end Rsqs
